import Mathlib

/-!
Verification development for the `ollama-aibot` CLI client (`src/aibot.py`).

The client is a thin orchestration layer: argument handling, one or two HTTP
calls, and incremental console rendering of a newline-delimited JSON stream.
All network and console effects are embedded shallowly: the record stream is a
Lean list of decoded records, console emissions are collected into a list, and
a Python `NameError`/`UnboundLocalError` raised by the metric code at the end
of `stream_response` is an `Except.error` value.  Each definition mirrors one
function (or one control-flow region) of `src/aibot.py`; the line numbers in
the doc comments refer to that file.
-/

/-- Truthiness of an optional string, as Python evaluates it in a condition:
`None` and the empty string are falsy, every other string is truthy.  Used by
`pick_model` (line 88: `if user_specified:`, line 92: `if env_model:`) and by
`main` (line 297: `if args.append_p:`). -/
def truthy : Option String → Bool
  | none => false
  | some s => s != ""

/-- Result of `pick_model` (lines 86-99).  The listing endpoint is embedded as
an `Except String (List String)`: `.error` models `list_models()` raising
(connectivity failure or malformed payload), `.ok` models the returned list of
model names.  `try: return list_models()[0] except Exception: ...` turns both a
raised listing error and the `IndexError` on an empty list into the single
`RuntimeError "No models available to pick"`. -/
def pick_model (user_specified : Option String) (env_model : Option String)
    (listing : Except String (List String)) : Except String String :=
  if truthy user_specified then Except.ok (user_specified.getD "")
  else if truthy env_model then Except.ok (env_model.getD "")
  else
    match listing with
    | Except.ok (m :: _) => Except.ok m
    | Except.ok [] => Except.error "No models available to pick"
    | Except.error _ => Except.error "No models available to pick"

/-- The stream decoder `json_stream` (lines 103-111).  A line of the response
body is a `String`; `loads` embeds `json.loads`, returning `none` when decoding
raises `json.JSONDecodeError`.  `if not raw_line: continue` skips falsy (empty)
lines; a line whose decode fails is dropped and iteration continues.  The
function is total: it never raises. -/
def json_stream {α : Type} (loads : String → Option α) : List String → List α
  | [] => []
  | l :: ls =>
    if l = "" then json_stream loads ls
    else
      match loads l with
      | some r => r :: json_stream loads ls
      | none => json_stream loads ls

/-- The nested object under the `message` key of a chat-endpoint record. -/
structure Message where
  content : Option String := none
deriving DecidableEq, Repr

/-- One decoded stream record (one JSON line), with the fields
`stream_response` reads: `response` (generate endpoint), `message.content`
(chat endpoint), and the final record counters `eval_count` / `eval_duration`.
A `none` field models an absent key, so that `chunk.get(key, default)` is
`Option.getD`. -/
structure Record where
  response : Option String := none
  message : Option Message := none
  eval_count : Option Nat := none
  eval_duration : Option Nat := none
deriving DecidableEq, Repr

/-- Fragment extraction inside the rendering loops (lines 127-130 and
139-142): `chunk.get("response", "")` when not in chat mode, and
`chunk.get("message", {}).get("content", "")` in chat mode. -/
def getFragment (chatmode : Bool) (chunk : Record) : String :=
  if chatmode then ((chunk.message.getD { content := none }).content.getD "")
  else chunk.response.getD ""

/-- The raw-mode (`no_md`) loop of `stream_response` (lines 123-133): for each
chunk the local `buffer` is overwritten with the extracted fragment, and the
fragment is printed iff it is truthy (non-empty).  Returns the final value of
`buffer` together with the list of printed fragments, in print order. -/
def rawLoop (chatmode : Bool) (buffer : String) (emits : List String) :
    List Record → String × List String
  | [] => (buffer, emits)
  | c :: cs =>
    let b := getFragment chatmode c
    rawLoop chatmode b (if b = "" then emits else emits ++ [b]) cs

/-- The Markdown-mode loop of `stream_response` (lines 136-145): each truthy
token is appended to `buffer`, and the whole buffer is re-rendered via
`live.update`.  Returns the final buffer and the successive rendered buffer
snapshots. -/
def mdLoop (chatmode : Bool) (buffer : String) (emits : List String) :
    List Record → String × List String
  | [] => (buffer, emits)
  | c :: cs =>
    let token := getFragment chatmode c
    if token = "" then mdLoop chatmode buffer emits cs
    else mdLoop chatmode (buffer ++ token) (emits ++ [buffer ++ token]) cs

/-- Observable result of `stream_response`: the fragments (or buffer
snapshots) emitted during the streaming loop, and then either the computed
tokens-per-second value paired with the returned `buffer`, or the Python
exception the epilogue raises (as its message). -/
structure StreamResult where
  emits : List String
  outcome : Except String (ℚ × String)
deriving Repr

/-- `stream_response(resp, no_md, chatmode)` (lines 113-155) over an
already-decoded record stream.  After the rendering loop, line 150 reads
`chunk` — unbound when the stream yielded no records (`NameError`); lines
150-151 read the final record counters with default `0`; line 152 guards the
division by `eval_duration > 0`; line 154 then prints `tokens_per_second`
unconditionally, which raises `UnboundLocalError` whenever the guard did not
run.  On success the function returns `buffer`. -/
def stream_response (no_md chatmode : Bool) (records : List Record) : StreamResult :=
  let p := if no_md then rawLoop chatmode "" [] records else mdLoop chatmode "" [] records
  match records.getLast? with
  | none => { emits := p.2, outcome := Except.error "NameError: chunk" }
  | some chunk =>
    let eval_count := chunk.eval_count.getD 0
    let eval_duration := chunk.eval_duration.getD 0
    if eval_duration > 0 then
      { emits := p.2
        outcome := Except.ok (((eval_count : ℚ) / (eval_duration : ℚ)) * 1000000000, p.1) }
    else
      { emits := p.2, outcome := Except.error "UnboundLocalError: tokens_per_second" }

/-- Role of a conversation-history entry. -/
inductive Role
  | system
  | user
  | assistant
deriving DecidableEq, Repr

/-- One entry of the in-RAM chat history: `{"role": ..., "content": ...}`. -/
structure ChatMsg where
  role : Role
  content : String
deriving DecidableEq, Repr

/-- One cycle of the chat loop body (lines 347 and 366): append the user turn
before the request, append the assistant reply after it. -/
def chatStep (history : List ChatMsg) (c : String × String) : List ChatMsg :=
  (history ++ [{ role := Role.user, content := c.1 }]) ++
    [{ role := Role.assistant, content := c.2 }]

/-- Chat history after running the loop of `main` (lines 342-366) over a list
of completed cycles, each cycle being the (prompt, assistant reply) pair of
one request.  The single system entry is appended once before the loop
(line 342). -/
def chatHistoryAfter (sys : String) (cycles : List (String × String)) : List ChatMsg :=
  cycles.foldl chatStep [{ role := Role.system, content := sys }]

/-- The alternating user/assistant pair list that the spec describes: one
user entry then one assistant entry per completed cycle, in cycle order. -/
def turnPairs : List (String × String) → List ChatMsg
  | [] => []
  | c :: cs =>
    { role := Role.user, content := c.1 } ::
      { role := Role.assistant, content := c.2 } :: turnPairs cs

/-- Python `"\n".join(line)` where `line` is a string (line 375): iterating a
string yields its characters, so this interleaves a newline between every pair
of adjacent characters of `line`. -/
def joinNewlineChars (line : String) : String :=
  String.intercalate "\n" (line.toList.map (fun ch => String.mk [ch]))

/-- The inner input loop of chat mode (lines 371-375): read lines until a line
equal to `"."` breaks the loop; every other line overwrites `prompt` with
`"\n".join(line)`.  `none` models `input()` raising `EOFError` when the line
list is exhausted before a sentinel is seen. -/
def promptAfterInput (prompt : String) : List String → Option String
  | [] => none
  | l :: ls =>
    if l = "." then some prompt
    else promptAfterInput (joinNewlineChars l) ls

/-- Network calls `main` can issue: the model listing (`GET /api/tags`), a
generation request (`POST /api/generate`, carrying its prompt), or a chat
request (`POST /api/chat`). -/
inductive NetCall
  | listTags
  | generate (prompt : String)
  | chatReq
deriving DecidableEq, Repr

/-- How the modelled prefix of `main` ends: `exited code` for `sys.exit`,
`raised msg` for an uncaught exception, `streaming` when control reaches the
first streaming request. -/
inductive MainOutcome
  | exited (code : Nat)
  | raised (msg : String)
  | streaming
deriving DecidableEq, Repr

/-- Parsed command-line arguments of `main` (lines 238-282), with the argparse
defaults.  Sampling parameters are carried for completeness; they do not touch
control flow. -/
structure Args where
  list : Bool := false
  no_md : Bool := false
  chat : Bool := false
  model : Option String := none
  system : Option String := none
  num_ctx : Nat := 8192
  temp : ℚ := 6 / 10
  top_k : ℚ := 40
  top_p : ℚ := 1
  min_p : ℚ := 0
  append_p : Option String := none
  prompt : Option String := none

/-- Python `str.strip()` with no argument: remove leading and trailing
whitespace. -/
def pyStrip (s : String) : String :=
  String.mk (((s.toList.dropWhile Char.isWhitespace).reverse.dropWhile
    Char.isWhitespace).reverse)

/-- The prefix of `main` (lines 282-334) up to the first streaming request,
recording every network call it issues, in order.  Inputs: the parsed
arguments, the `OLLAMA_MODEL` environment variable, the text available on
standard input, and the embedded listing endpoint.  Mirrors the source order:
`-list` handling first (lines 284-286), then model resolution (line 289) —
which hits the listing endpoint only when neither the flag nor the environment
variable is truthy — then prompt resolution.  In non-chat mode (lines
293-305), a missing positional prompt is replaced by stripped stdin (plus the
append flag), so the `prompt is None` check at line 302 compares a string and
can never fire; in chat mode (lines 320-328) a missing positional prompt
exits with code 1. -/
def mainRun (args : Args) (env_model : Option String) (stdin : String)
    (listing : Except String (List String)) : List NetCall × MainOutcome :=
  if args.list then
    match listing with
    | Except.ok _ => ([NetCall.listTags], MainOutcome.exited 0)
    | Except.error e => ([NetCall.listTags], MainOutcome.raised e)
  else
    let pickCalls : List NetCall :=
      if truthy args.model || truthy env_model then [] else [NetCall.listTags]
    match pick_model args.model env_model listing with
    | Except.error e => (pickCalls, MainOutcome.raised e)
    | Except.ok _ =>
      if !args.chat then
        let prompt : Option String :=
          match args.prompt with
          | none =>
            let p := pyStrip stdin
            some (if truthy args.append_p then p ++ "\n\n\n" ++ args.append_p.getD "" else p)
          | some p => some p
        match prompt with
        | none => (pickCalls, MainOutcome.exited 1)
        | some p => (pickCalls ++ [NetCall.generate p], MainOutcome.streaming)
      else
        match args.prompt with
        | none => (pickCalls, MainOutcome.exited 1)
        | some _ => (pickCalls ++ [NetCall.chatReq], MainOutcome.streaming)

/-! ### Helper lemmas -/

/-- The raw-mode loop appends exactly the non-empty extracted fragments, in
record order, to whatever was already emitted. -/
theorem rawLoop_snd (chatmode : Bool) (recs : List Record) :
    ∀ (b : String) (e : List String),
      (rawLoop chatmode b e recs).2 =
        e ++ (recs.map (getFragment chatmode)).filter (fun s => s != "") := by
  induction recs with
  | nil => intro b e; simp [rawLoop]
  | cons c cs ih =>
    intro b e
    by_cases h : getFragment chatmode c = "" <;>
      simp [rawLoop, h, ih, List.filter_cons]

/-- The chat loop folded from any initial history appends the alternating
user/assistant pairs of the processed cycles. -/
theorem foldl_chatStep (cycles : List (String × String)) :
    ∀ init : List ChatMsg, cycles.foldl chatStep init = init ++ turnPairs cycles := by
  induction cycles with
  | nil => intro init; simp [turnPairs]
  | cons c cs ih =>
    intro init
    simp [List.foldl, chatStep, ih, turnPairs]

/-- The pair list contains no system entries. -/
theorem turnPairs_filter_system (cycles : List (String × String)) :
    (turnPairs cycles).filter (fun m => m.role == Role.system) = [] := by
  induction cycles with
  | nil => simp [turnPairs]
  | cons c cs ih => simp [turnPairs, List.filter_cons, ih]

/-- Each cycle contributes exactly two entries. -/
theorem turnPairs_length (cycles : List (String × String)) :
    (turnPairs cycles).length = 2 * cycles.length := by
  induction cycles with
  | nil => simp [turnPairs]
  | cons c cs ih => simp [turnPairs, ih]; ring

/-! ### Claim theorems -/

/-- C6: for every line sequence (and every embedded `json.loads`), the stream
decoder yields exactly the successfully decoded records of the non-blank
lines, in original order: blank lines are skipped, undecodable lines are
silently dropped, and the decoder is a total function (it never raises). -/
theorem json_stream_yields_valid_records {α : Type} (loads : String → Option α)
    (lines : List String) :
    json_stream loads lines = (lines.filter (fun l => l != "")).filterMap loads := by
  induction lines with
  | nil => rfl
  | cons l ls ih =>
    by_cases h : l = ""
    · simp [json_stream, h, ih, List.filter_cons]
    · cases hl : loads l <;>
        simp [json_stream, h, hl, ih, List.filter_cons, List.filterMap_cons]

/-- C7: model resolution returns the explicitly supplied (non-empty) name
unchecked; otherwise the (non-empty) environment value; otherwise the first
listed model; and an empty model list yields the no-models-available error. -/
theorem pick_model_resolution :
    (∀ (s : String) (env : Option String) (lst : Except String (List String)),
        s ≠ "" → pick_model (some s) env lst = Except.ok s) ∧
    (∀ (e : String) (lst : Except String (List String)),
        e ≠ "" → pick_model none (some e) lst = Except.ok e) ∧
    (∀ (m : String) (ms : List String),
        pick_model none none (Except.ok (m :: ms)) = Except.ok m) ∧
    pick_model none none (Except.ok ([] : List String)) =
      Except.error "No models available to pick" := by
  refine ⟨?_, ?_, ?_, ?_⟩
  · intro s env lst hs
    simp [pick_model, truthy, hs]
  · intro e lst he
    simp [pick_model, truthy, he]
  · intro m ms
    simp [pick_model, truthy]
  · simp [pick_model, truthy]

/-- Witness for C7 at concrete inputs. -/
theorem pick_model_resolution_witness :
    pick_model (some "llama3") (some "envmodel") (Except.ok ["first"]) = Except.ok "llama3" ∧
    pick_model none (some "envmodel") (Except.ok ["first"]) = Except.ok "envmodel" ∧
    pick_model none none (Except.ok ["first"]) = Except.ok "first" ∧
    pick_model none none (Except.ok ([] : List String)) =
      Except.error "No models available to pick" :=
  ⟨pick_model_resolution.1 "llama3" (some "envmodel") (Except.ok ["first"]) (by decide),
   pick_model_resolution.2.1 "envmodel" (Except.ok ["first"]) (by decide),
   pick_model_resolution.2.2.1 "first" [],
   pick_model_resolution.2.2.2⟩

/-- C8: after any number of completed chat cycles the history is the single
system entry — placed first, with the content fixed at session start — followed
by the alternating user/assistant pairs of the cycles in chronological order:
exactly one system entry and two entries per cycle. -/
theorem chat_history_invariant (sys : String) (cycles : List (String × String)) :
    chatHistoryAfter sys cycles =
      { role := Role.system, content := sys } :: turnPairs cycles ∧
    ((chatHistoryAfter sys cycles).filter (fun m => m.role == Role.system)).length = 1 ∧
    (chatHistoryAfter sys cycles).length = 1 + 2 * cycles.length := by
  have h := foldl_chatStep cycles [{ role := Role.system, content := sys }]
  refine ⟨by simpa using h, ?_, ?_⟩
  · rw [chatHistoryAfter, h]
    simp [List.filter_cons, turnPairs_filter_system]
  · rw [chatHistoryAfter, h]
    simp [turnPairs_length]
    ring

/-- C9: in raw (`no_md`) mode the renderer extracts the fragment from
`response` (single-turn) or `message.content` (chat), and emits exactly the
non-empty fragments, immediately, in record order, never deduplicating —
the emission list is the filtered map itself, so repeats survive. -/
theorem raw_mode_emits_fragments (chatmode : Bool) (records : List Record) :
    (stream_response true chatmode records).emits =
      (records.map (getFragment chatmode)).filter (fun s => s != "") := by
  have h := rawLoop_snd chatmode records "" []
  unfold stream_response
  cases records.getLast? with
  | none => simpa using h
  | some chunk =>
    by_cases hd : chunk.eval_duration.getD 0 > 0 <;> simp [hd] <;> simpa using h

/-- C10: whenever the final record of the stream carries `eval_count = 100`
and `eval_duration = 2000000000` nanoseconds, the throughput computed on
stream completion is `(100 / 2000000000) * 1000000000 = 50` tokens per
second, in both rendering modes. -/
theorem throughput_at_100_2e9 (no_md chatmode : Bool) (pre : List Record) (r : Record)
    (hc : r.eval_count = some 100) (hd : r.eval_duration = some 2000000000) :
    (stream_response no_md chatmode (pre ++ [r])).outcome.map Prod.fst =
      Except.ok (50 : ℚ) := by
  unfold stream_response
  rw [List.getLast?_concat]
  simp [hc, hd, Except.map]
  norm_num

/-- Witness for C10 at a concrete one-record stream. -/
theorem throughput_at_100_2e9_witness :
    (stream_response true false
        [{ eval_count := some 100, eval_duration := some 2000000000 }]).outcome.map Prod.fst =
      Except.ok (50 : ℚ) :=
  throughput_at_100_2e9 true false []
    { eval_count := some 100, eval_duration := some 2000000000 } rfl rfl

/-- C5: the next chat prompt is derived only from the most recent non-sentinel
input line before the sentinel `"."`: every earlier line (and the previous
prompt) is discarded, and the kept line has a newline interleaved between each
pair of adjacent characters (`"\n".join(line)` over a string). -/
theorem next_prompt_from_last_line (prev : String) (earlier : List String)
    (l : String) (rest : List String)
    (hE : ∀ x ∈ earlier, x ≠ ".") (hl : l ≠ ".") :
    promptAfterInput prev (earlier ++ l :: "." :: rest) = some (joinNewlineChars l) := by
  induction earlier generalizing prev with
  | nil => simp [promptAfterInput, hl]
  | cons a as ih =>
    have ha : a ≠ "." := hE a (by simp)
    simp only [List.cons_append, promptAfterInput, if_neg ha]
    exact ih (joinNewlineChars a) (fun x hx => hE x (by simp [hx]))

/-- Witness for C5: entering `hi` then the sentinel yields the prompt
`h\ni`, independent of the previous prompt. -/
theorem next_prompt_from_last_line_witness :
    promptAfterInput "previous" ["hi", "."] = some "h\ni" := by
  have h := next_prompt_from_last_line "previous" [] "hi" [] (by simp) (by decide)
  simpa [joinNewlineChars] using h

/-- C1 (code-bug evidence): in raw (`no_md`) mode `buffer` is overwritten by
each record instead of accumulated, so `stream_response` returns only the last
record fragment (`"world"`), not the concatenation `"Hello world"`; the
Markdown-mode run over the same records does return the concatenation. -/
theorem raw_mode_returns_last_fragment_only :
    (stream_response true false
        [{ response := some "Hello " },
         { response := some "world", eval_count := some 10,
           eval_duration := some 1000000000 }]).outcome =
      Except.ok ((10 : ℚ), "world") ∧
    (stream_response false false
        [{ response := some "Hello " },
         { response := some "world", eval_count := some 10,
           eval_duration := some 1000000000 }]).outcome =
      Except.ok ((10 : ℚ), "Hello world") ∧
    "world" ≠ "Hello world" := by
  refine ⟨?_, ?_, by decide⟩ <;>
    simp [stream_response, rawLoop, mdLoop, getFragment]

/-- C2 (code-bug evidence): when the final record carries no positive
`eval_duration` the division is indeed guarded, but line 154 still prints
`tokens_per_second`, raising `UnboundLocalError`; and an empty stream makes
line 150 read the unbound `chunk`, raising `NameError`.  In neither case is
the metric silently omitted. -/
theorem zero_duration_raises_unbound_local :
    (stream_response true false [({} : Record)]).outcome =
      Except.error "UnboundLocalError: tokens_per_second" ∧
    (stream_response true false ([] : List Record)).outcome =
      Except.error "NameError: chunk" := by
  constructor <;> rfl

/-- C3 (code-bug evidence): with no positional prompt, empty stdin, no append
flag, no `-model` flag and no `OLLAMA_MODEL`, the single-shot path still
issues the model-listing call and then a generation request with the empty
prompt, reaching streaming instead of the missing-prompt error; in chat mode
the missing-prompt exit does fire, but only after the listing call was
already issued. -/
theorem missing_prompt_still_calls_network :
    mainRun {} none "" (Except.ok ["m1"]) =
      ([NetCall.listTags, NetCall.generate ""], MainOutcome.streaming) ∧
    mainRun { chat := true } none "" (Except.ok ["m1"]) =
      ([NetCall.listTags], MainOutcome.exited 1) := by
  constructor <;> rfl

/-- C4 (code-bug evidence): the renderer has no word-segmentation variant.
For the fragment stream `["Hello ", "world\n", "done"]` the raw-mode loop
emits all three fragments during streaming — `"done"` is printed as soon as
its record arrives, not held back and flushed at stream end, so the
during-stream emission list differs from the word-segmented
`["Hello ", "world\n"]`. -/
theorem no_word_segmentation_variant :
    (stream_response true false
        [{ response := some "Hello " },
         { response := some "world\n" },
         { response := some "done", eval_count := some 3,
           eval_duration := some 1000000000 }]).emits =
      ["Hello ", "world\n", "done"] ∧
    (["Hello ", "world\n", "done"] : List String) ≠ ["Hello ", "world\n"] := by
  constructor
  · rfl
  · decide
